import Mathlib

/-!
Verification development for the SkillBotML pipeline scripts
(`src/app/SkillBotML/scripts/load_training_data.py` and
`src/app/SkillBotML/scripts/train_model.py`).

Stage A (loader): reads a tabular dataset, drops the `"label"` column to
form the feature matrix, selects the `"label"` column as the label vector,
and converts both to numeric arrays.

Stage B (trainer): splits feature/label arrays into train/validation
subsets with `train_test_split(test_size=0.2, random_state=42)`, builds a
fixed-topology dense network, compiles it with the adam optimizer and
binary cross-entropy loss, fits it for 10 epochs with batch size 32
evaluating on the validation data each epoch, and saves the model.

The embedding is a shallow one: dataframes are lists of rows of cells,
numeric cells carry integers (no arithmetic is ever performed on cell
values, so the numeric carrier is irrelevant), fallible library calls
return `Except`, and the trainer's observable behaviour is captured as a
list of events (epochs run, model saved).
-/

set_option maxHeartbeats 1000000

namespace SkillBot

/-- A cell of the tabular dataset: either a numeric value or a raw string
(the latter models non-numeric CSV content). -/
inductive Value where
  | num (k : Int)
  | str (s : String)
  deriving DecidableEq, Repr

/-- Whether a cell is a raw (non-numeric) string. -/
def Value.isStr : Value → Bool
  | Value.num _ => false
  | Value.str _ => true

/-- The Python exceptions the two scripts can surface. -/
inductive PyError where
  | keyError (k : String)
  | nameError (n : String)
  | typeError (msg : String)
  | valueError (msg : String)
  deriving DecidableEq, Repr

/-- A pandas `DataFrame`: named columns and rows of cells.  Well-formed
frames have every row of the same length as the column list. -/
structure DataFrame where
  columns : List String
  rows : List (List Value)
  deriving DecidableEq, Repr

/-- Remove from a row the entries whose column name equals `col`
(the row operation underlying `data.drop(columns=["label"])`). -/
def dropRowEntries (cols : List String) (col : String) (r : List Value) : List Value :=
  ((cols.zip r).filter (fun p => p.1 != col)).map Prod.snd

/-- pandas `DataFrame.drop(columns=[col], inplace=inplace)`.  Returns the
state of the receiver after the call together with the returned frame
(`none` when `inplace=True`, since the call then returns `None`); raises
`KeyError` when the column is absent.  The script calls it with the
default `inplace=False`, which leaves the receiver untouched. -/
def DataFrame.drop (df : DataFrame) (col : String) (inplace : Bool) :
    Except PyError (DataFrame × Option DataFrame) :=
  if col ∈ df.columns then
    let dropped : DataFrame :=
      ⟨df.columns.filter (fun c => c != col), df.rows.map (dropRowEntries df.columns col)⟩
    if inplace then Except.ok (dropped, none) else Except.ok (df, some dropped)
  else Except.error (PyError.keyError col)

/-- pandas column selection `df[col]`: the column's cells in row order;
raises `KeyError` when the column is absent. -/
def DataFrame.getColumn (df : DataFrame) (col : String) : Except PyError (List Value) :=
  if col ∈ df.columns then
    Except.ok (df.rows.map (fun r => r.getD (df.columns.indexOf col) (Value.str "")))
  else Except.error (PyError.keyError col)

/-- Modelled from the spec: the numeric conversion performed by
`np.array` on a dataframe cell ("Convert to NumPy arrays for TensorFlow
compatibility"); per spec section 7, a non-numeric value is a fatal
type/conversion error. -/
def valueToNum : Value → Except PyError Int
  | Value.num k => Except.ok k
  | Value.str s => Except.error (PyError.typeError s)

/-- `np.array` on a 1-D column of cells. -/
def npArrayVec : List Value → Except PyError (List Int)
  | [] => Except.ok []
  | v :: vs =>
    match valueToNum v with
    | Except.error e => Except.error e
    | Except.ok n =>
      match npArrayVec vs with
      | Except.error e => Except.error e
      | Except.ok ns => Except.ok (n :: ns)

/-- `np.array` on a 2-D table of cells. -/
def npArrayMatrix : List (List Value) → Except PyError (List (List Int))
  | [] => Except.ok []
  | r :: rs =>
    match npArrayVec r with
    | Except.error e => Except.error e
    | Except.ok nr =>
      match npArrayMatrix rs with
      | Except.error e => Except.error e
      | Except.ok nrs => Except.ok (nr :: nrs)

/-- The numeric content of a cell (meaningful on `Value.num` cells). -/
def numOf : Value → Int
  | Value.num k => k
  | Value.str _ => 0

/-- The loader script `load_training_data.py`, from the point where the
dataframe `data` is in memory:
`X = data.drop(columns=["label"])`, `y = data["label"]`,
`X = np.array(X)`, `y = np.array(y)`.  The result carries the final state
of the `data` variable alongside the produced arrays, so that frame
effects on the dataset are observable. -/
def loadScript (data : DataFrame) :
    Except PyError (DataFrame × List (List Int) × List Int) :=
  match DataFrame.drop data "label" false with
  | Except.error e => Except.error e
  | Except.ok dres =>
    let data1 := dres.1
    let Xframe := dres.2.getD ⟨[], []⟩
    match DataFrame.getColumn data1 "label" with
    | Except.error e => Except.error e
    | Except.ok ycol =>
      match npArrayMatrix Xframe.rows with
      | Except.error e => Except.error e
      | Except.ok X =>
        match npArrayVec ycol with
        | Except.error e => Except.error e
        | Except.ok yv => Except.ok (data1, X, yv)

/-- One step of a linear congruential generator, used to drive the
pseudo-random shuffle below. -/
def lcgNext (s : Nat) : Nat := (1103515245 * s + 12345) % 4294967296

/-- Fuelled Fisher–Yates shuffle: at each step pick the element at
position `seed mod length`, emit it, and recurse on the rest with the
next generator state.  The fuel is set to the list length by the
wrapper, so the shuffle always completes. -/
def fyShuffle : Nat → Nat → List Nat → List Nat
  | 0, _, l => l
  | fuel + 1, s, l =>
    match l with
    | [] => []
    | _ :: _ =>
      let k := s % l.length
      l.getD k 0 :: fyShuffle fuel (lcgNext s) (l.eraseIdx k)

/-- Modelled from the spec: the seed-deterministic pseudo-random
permutation drawn by scikit-learn's `train_test_split` from its
`random_state` argument.  The spec fixes only that it is a deterministic
function of the seed that shuffles the row indices; the concrete
generator is irrelevant to every property proved below. -/
def seededShuffle (seed : Nat) (l : List Nat) : List Nat :=
  fyShuffle l.length seed l

/-- The shuffled row indices `0, …, n-1` for a given seed. -/
def permIndices (seed n : Nat) : List Nat :=
  seededShuffle seed (List.range n)

/-- The held-out row count for `test_size = 0.2`:
`ceil(0.2 * n)`, computed exactly as `(n + 4) / 5` in integers
(scikit-learn takes the ceiling of `test_size * n_samples`). -/
def testCount (n : Nat) : Nat := (n + 4) / 5

/-- Modelled from the spec: scikit-learn
`train_test_split(X, y, test_size=0.2, random_state=seed)` — shuffle the
row indices with the seeded generator, take the first `ceil(0.2 n)` as
the validation (test) rows and the rest as the training rows, and select
the same index lists out of the features and out of the labels.  Returns
`(X_train, X_test, y_train, y_test)`. -/
def trainTestSplit (seed : Nat) (X : List (List Int)) (y : List Int) :
    List (List Int) × List (List Int) × List Int × List Int :=
  let n := X.length
  let perm := permIndices seed n
  let testIdx := perm.take (testCount n)
  let trainIdx := perm.drop (testCount n)
  (trainIdx.map (fun i => X.getD i []), testIdx.map (fun i => X.getD i []),
   trainIdx.map (fun i => y.getD i 0), testIdx.map (fun i => y.getD i 0))

/-- `train_test_split` with its `random_state` surface: when
`random_state` is `none` the split draws from the ambient global
generator state; when it is `some s` the fresh generator is seeded with
`s` and the ambient state is irrelevant. -/
def trainTestSplitRS (globalRngState : Nat) (randomState : Option Nat)
    (X : List (List Int)) (y : List Int) :
    List (List Int) × List (List Int) × List Int × List Int :=
  trainTestSplit (randomState.getD globalRngState) X y

/-- A Keras dense layer: unit count and activation name. -/
structure Layer where
  units : Nat
  activation : String
  deriving DecidableEq, Repr

/-- A Keras `Sequential` model: declared input width and dense layers. -/
structure SequentialModel where
  inputWidth : Nat
  layers : List Layer
  deriving DecidableEq, Repr

/-- A compiled model: the network plus the optimizer, loss and metric
names passed to `model.compile`. -/
structure CompiledModel where
  net : SequentialModel
  optimizer : String
  loss : String
  metrics : List String
  deriving DecidableEq, Repr

/-- `numpy` `X.shape[1]` for a row-major table of feature rows. -/
def colCount (X : List (List Int)) : Nat := (X.headD []).length

/-- The model built by `train_model.py`:
`Input(shape=(X_train.shape[1],))`, `Dense(64, relu)`, `Dense(32, relu)`,
`Dense(1, sigmoid)`. -/
def buildModel (featureCount : Nat) : SequentialModel :=
  ⟨featureCount, [⟨64, "relu"⟩, ⟨32, "relu"⟩, ⟨1, "sigmoid"⟩]⟩

/-- `model.compile(optimizer=opt, loss=loss, metrics=ms)`. -/
def compileModel (m : SequentialModel) (opt loss : String) (ms : List String) :
    CompiledModel :=
  ⟨m, opt, loss, ms⟩

/-- Observable events of a trainer run: a completed pass over the
training set (recording whether the validation subset was evaluated
after it) and the model being serialized to a path. -/
inductive Event where
  | epochRun (i : Nat) (validated : Bool)
  | saved (path : String)
  deriving DecidableEq, Repr

/-- Modelled from the spec: Keras `model.fit(X_train, y_train,
epochs=epochs, batch_size=batchSize, validation_data=(X_val, y_val))` —
a shape mismatch between the declared input width and the training
features is fatal and occurs before any training iteration runs;
otherwise every epoch runs over the training set and evaluates the
validation subset.  Returns the emitted events and the outcome. -/
def fit (m : SequentialModel) (Xtr : List (List Int)) (ytr : List Int)
    (Xval : List (List Int)) (yval : List Int) (epochs batchSize : Nat) :
    List Event × Except PyError Unit :=
  if Xtr.all (fun r => r.length == m.inputWidth) then
    ((List.range epochs).map (fun i => Event.epochRun i true), Except.ok ())
  else
    ([], Except.error (PyError.valueError "input shape incompatible with the model"))

/-- The hardcoded configuration of `train_model.py`. -/
def scriptSeed : Nat := 42

/-- `optimizer="adam"` in the script's `model.compile` call. -/
def scriptOptimizer : String := "adam"

/-- `loss="binary_crossentropy"` in the script's `model.compile` call. -/
def scriptLoss : String := "binary_crossentropy"

/-- `metrics=["accuracy"]` in the script's `model.compile` call. -/
def scriptMetrics : List String := ["accuracy"]

/-- `epochs=10` in the script's `model.fit` call. -/
def scriptEpochs : Nat := 10

/-- `batch_size=32` in the script's `model.fit` call. -/
def scriptBatchSize : Nat := 32

/-- The fixed output path of `model.save`. -/
def modelSavePath : String :=
  "C:\\Users\\OPT2\\wannagonna_app\\src\\app\\SkillBotML\\models\\trained_model.h5"

/-- The trainer script `train_model.py` given bound feature/label arrays:
split with seed 42 and test size 0.2, build the model on
`X_train.shape[1]` input width, compile, fit for 10 epochs with batch
size 32 and validation data, and save the model only after `fit`
returns; a `fit` failure propagates and no save happens. -/
def runTrainModel (X : List (List Int)) (y : List Int) :
    List Event × Except PyError Unit :=
  let s := trainTestSplit scriptSeed X y
  let Xtr := s.1
  let Xval := s.2.1
  let ytr := s.2.2.1
  let yval := s.2.2.2
  let m := buildModel (colCount Xtr)
  let cm := compileModel m scriptOptimizer scriptLoss scriptMetrics
  let fr := fit cm.net Xtr ytr Xval yval scriptEpochs scriptBatchSize
  match fr.2 with
  | Except.ok _ => (fr.1 ++ [Event.saved modelSavePath], Except.ok ())
  | Except.error e => (fr.1, Except.error e)

/-- A Python value that can be bound to a top-level name. -/
inductive PyVal where
  | mat (m : List (List Int))
  | vec (v : List Int)
  deriving DecidableEq, Repr

/-- Executing `train_model.py` under a top-level environment.  The script
defines neither `X` nor `y` and imports neither, so its first statement
`train_test_split(X, y, …)` looks both names up in the ambient
environment; an unbound name is a `NameError` raised before the split is
computed. -/
def trainScriptMain (env : String → Option PyVal) :
    List Event × Except PyError Unit :=
  match env "X" with
  | none => ([], Except.error (PyError.nameError "X"))
  | some vX =>
    match env "y" with
    | none => ([], Except.error (PyError.nameError "y"))
    | some vy =>
      match vX, vy with
      | PyVal.mat X, PyVal.vec y => runTrainModel X y
      | _, _ => ([], Except.error (PyError.typeError "X and y must be arrays"))

/-! Concrete sample inputs used to instantiate the theorems below. -/

/-- A 2-row dataframe with a `"label"` column between two feature columns. -/
def sampleFrame : DataFrame :=
  ⟨["a", "label", "b"],
   [[Value.num 1, Value.num 9, Value.num 2], [Value.num 3, Value.num 8, Value.num 4]]⟩

/-- A dataframe with no `"label"` column. -/
def sampleNoLabelFrame : DataFrame := ⟨["a", "b"], [[Value.num 1, Value.num 2]]⟩

/-- A dataframe whose feature column holds a non-numeric string. -/
def sampleStrFrame : DataFrame :=
  ⟨["a", "label"], [[Value.str "oops", Value.num 1]]⟩

/-- Three feature rows of width 2. -/
def sampleX3 : List (List Int) := [[1, 2], [3, 4], [5, 6]]

/-- Three labels aligned with `sampleX3`. -/
def sampleY3 : List Int := [0, 1, 1]

/-- The 100-row, 5-feature-column dataset of the spec's end-to-end scenario. -/
def sampleX100 : List (List Int) := List.replicate 100 (List.replicate 5 0)

/-- 100 labels aligned with `sampleX100`. -/
def sampleY100 : List Int := List.replicate 100 0

/-- An environment binding `X` and `y` (and nothing else). -/
def envBoth : String → Option PyVal := fun n =>
  if n = "X" then some (PyVal.mat [[1], [2]])
  else if n = "y" then some (PyVal.vec [0, 1])
  else none

/-- An environment agreeing with `envBoth` on `X` and `y` but binding
other names as well. -/
def envBothPlus : String → Option PyVal := fun n =>
  if n = "X" then some (PyVal.mat [[1], [2]])
  else if n = "y" then some (PyVal.vec [0, 1])
  else some (PyVal.vec [])

/-- The empty top-level environment: nothing is bound. -/
def envEmpty : String → Option PyVal := fun _ => none

/-! Helper lemmas. -/

theorem getD_mem_of_lt {α : Type} (l : List α) (i : Nat) (d : α) (h : i < l.length) :
    l.getD i d ∈ l := by
  simp only [List.getD_eq_getElem?_getD, List.getElem?_eq_getElem h, Option.getD_some]
  exact List.getElem_mem h

theorem getD_map_of_lt {α β : Type} (f : α → β) (l : List α) (i : Nat) (d : β) (d0 : α)
    (h : i < l.length) : (l.map f).getD i d = f (l.getD i d0) := by
  simp [List.getD_eq_getElem?_getD, List.getElem?_map, List.getElem?_eq_getElem h]

theorem fyShuffle_length (fuel : Nat) :
    ∀ (s : Nat) (l : List Nat), (fyShuffle fuel s l).length = l.length := by
  induction fuel with
  | zero => intro s l; rfl
  | succ fuel ih =>
    intro s l
    cases l with
    | nil => rfl
    | cons a t =>
      simp only [fyShuffle, List.length_cons, ih]
      have hlt : s % (t.length + 1) < (a :: t).length := Nat.mod_lt _ (Nat.succ_pos t.length)
      rw [List.length_eraseIdx_of_lt hlt]
      simp only [List.length_cons]
      omega

theorem mem_fyShuffle (fuel : Nat) :
    ∀ (s : Nat) (l : List Nat) (a : Nat), a ∈ fyShuffle fuel s l → a ∈ l := by
  induction fuel with
  | zero => intro s l a h; exact h
  | succ fuel ih =>
    intro s l a h
    cases l with
    | nil => simpa [fyShuffle] using h
    | cons b t =>
      simp only [fyShuffle, List.mem_cons] at h
      rcases h with h | h
      · rw [h]
        exact getD_mem_of_lt _ _ _ (Nat.mod_lt _ (by simp))
      · exact List.mem_of_mem_eraseIdx (ih _ _ _ h)

theorem permIndices_length (s n : Nat) : (permIndices s n).length = n := by
  simp [permIndices, seededShuffle, fyShuffle_length]

theorem mem_permIndices {j : Nat} (s n : Nat) (h : j ∈ permIndices s n) : j < n :=
  List.mem_range.1 (mem_fyShuffle _ _ _ _ h)

theorem testCount_le (n : Nat) : testCount n ≤ n := by
  unfold testCount; omega

theorem valueToNum_of_not_str {v : Value} (h : v.isStr = false) :
    valueToNum v = Except.ok (numOf v) := by
  cases v with
  | num k => rfl
  | str s => simp [Value.isStr] at h

theorem npArrayVec_of_num {l : List Value} (h : ∀ v ∈ l, v.isStr = false) :
    npArrayVec l = Except.ok (l.map numOf) := by
  induction l with
  | nil => rfl
  | cons v vs ih =>
    have hv : v.isStr = false := h v (List.mem_cons_self ..)
    have hvs : ∀ w ∈ vs, w.isStr = false := fun w hw => h w (List.mem_cons_of_mem _ hw)
    simp [npArrayVec, valueToNum_of_not_str hv, ih hvs]

theorem npArrayMatrix_of_num {rs : List (List Value)}
    (h : ∀ r ∈ rs, ∀ v ∈ r, v.isStr = false) :
    npArrayMatrix rs = Except.ok (rs.map (fun r => r.map numOf)) := by
  induction rs with
  | nil => rfl
  | cons r t ih =>
    have hr : ∀ v ∈ r, v.isStr = false := h r (List.mem_cons_self ..)
    have ht : ∀ q ∈ t, ∀ v ∈ q, v.isStr = false := fun q hq => h q (List.mem_cons_of_mem _ hq)
    simp [npArrayMatrix, npArrayVec_of_num hr, ih ht]

theorem npArrayVec_of_str {l : List Value} (h : ∃ v ∈ l, v.isStr = true) :
    ∃ s, npArrayVec l = Except.error (PyError.typeError s) := by
  induction l with
  | nil => simp at h
  | cons v vs ih =>
    cases hv : v with
    | str s => exact ⟨s, by simp [npArrayVec, valueToNum]⟩
    | num k =>
      have hvs : ∃ w ∈ vs, w.isStr = true := by
        rcases h with ⟨w, hw, hws⟩
        rcases List.mem_cons.1 hw with rfl | hmem
        · rw [hv] at hws; simp [Value.isStr] at hws
        · exact ⟨w, hmem, hws⟩
      rcases ih hvs with ⟨s, hs⟩
      exact ⟨s, by simp [npArrayVec, valueToNum, hs]⟩

theorem npArrayMatrix_of_str {rs : List (List Value)}
    (h : ∃ r ∈ rs, ∃ v ∈ r, v.isStr = true) :
    ∃ s, npArrayMatrix rs = Except.error (PyError.typeError s) := by
  induction rs with
  | nil => simp at h
  | cons r t ih =>
    by_cases hr : ∃ v ∈ r, v.isStr = true
    · rcases npArrayVec_of_str hr with ⟨s, hs⟩
      exact ⟨s, by simp [npArrayMatrix, hs]⟩
    · have hnum : ∀ v ∈ r, v.isStr = false := by
        intro v hv
        rcases Bool.eq_false_or_eq_true v.isStr with h1 | h0
        · exact absurd ⟨v, hv, h1⟩ hr
        · exact h0
      have ht : ∃ q ∈ t, ∃ v ∈ q, v.isStr = true := by
        rcases h with ⟨q, hq, hqs⟩
        rcases List.mem_cons.1 hq with rfl | hmem
        · exact absurd hqs hr
        · exact ⟨q, hmem, hqs⟩
      rcases ih ht with ⟨s, hs⟩
      exact ⟨s, by simp [npArrayMatrix, npArrayVec_of_num hnum, hs]⟩

theorem trainTestSplit_eq (seed : Nat) (X : List (List Int)) (y : List Int) :
    trainTestSplit seed X y =
      (((permIndices seed X.length).drop (testCount X.length)).map (fun i => X.getD i []),
       ((permIndices seed X.length).take (testCount X.length)).map (fun i => X.getD i []),
       ((permIndices seed X.length).drop (testCount X.length)).map (fun i => y.getD i 0),
       ((permIndices seed X.length).take (testCount X.length)).map (fun i => y.getD i 0)) :=
  rfl

/-! Claim theorems. -/

/-- Claim C4: two runs of the train/validation split with the same random
seed (42) produce identical results — the same rows are assigned to the
training subset and the same rows to the validation subset in both runs,
whatever the ambient global generator state of either run is. -/
theorem split_deterministic_same_seed (g g2 : Nat) (X : List (List Int)) (y : List Int) :
    trainTestSplitRS g (some 42) X y = trainTestSplitRS g2 (some 42) X y := rfl

/-- Claim C5: for every dataset without a `"label"` column, the loader
raises a `KeyError` and produces no (features, labels) result: the
`data.drop(columns=["label"])` call fails before any array is built. -/
theorem missing_label_lookup_error (data : DataFrame) (h : "label" ∉ data.columns) :
    loadScript data = Except.error (PyError.keyError "label") := by
  simp [loadScript, DataFrame.drop, h]

/-- Witness for C5 at a concrete two-column frame with no label column. -/
theorem missing_label_lookup_error_witness :
    loadScript sampleNoLabelFrame = Except.error (PyError.keyError "label") :=
  missing_label_lookup_error sampleNoLabelFrame (by decide)

/-- Claim C9: the loader never modifies the loaded dataset — when the
script succeeds, the state of the `data` variable after the feature
matrix and label vector are built is exactly the input dataset (the
`drop` call runs with `inplace=False`). -/
theorem loader_leaves_dataset_unchanged (data d : DataFrame) (X : List (List Int))
    (y : List Int) (h : loadScript data = Except.ok (d, X, y)) : d = data := by
  by_cases hc : "label" ∈ data.columns
  · simp only [loadScript, DataFrame.drop, DataFrame.getColumn, hc, if_true,
      Bool.false_eq_true, if_false, Option.getD_some] at h
    split at h
    · exact absurd h (by simp)
    · split at h
      · exact absurd h (by simp)
      · simp only [Except.ok.injEq, Prod.mk.injEq] at h
        exact h.1.symm
  · simp [loadScript, DataFrame.drop, hc] at h

/-- Witness for C9: on the concrete sample frame the loader succeeds and
hands back the dataset unchanged. -/
theorem loader_leaves_dataset_unchanged_witness : sampleFrame = sampleFrame :=
  loader_leaves_dataset_unchanged sampleFrame sampleFrame [[1, 2], [3, 4]] [9, 8] (by rfl)

/-- Claim C8: `train_model.py` defines neither `X` nor `y` and imports
them from nowhere — its behaviour depends only on the values bound to
the top-level names `X` and `y` by the loader, and running it with `X`
(resp. `y`) unbound raises a `NameError` with an empty event trace,
i.e. before the split or any training work happens. -/
theorem trainer_reads_implicit_globals :
    (∀ env env2 : String → Option PyVal,
      env "X" = env2 "X" → env "y" = env2 "y" →
      trainScriptMain env = trainScriptMain env2) ∧
    (∀ env : String → Option PyVal, env "X" = none →
      trainScriptMain env = ([], Except.error (PyError.nameError "X"))) ∧
    (∀ env : String → Option PyVal, env "X" ≠ none → env "y" = none →
      trainScriptMain env = ([], Except.error (PyError.nameError "y"))) := by
  refine ⟨?_, ?_, ?_⟩
  · intro env env2 h1 h2
    unfold trainScriptMain
    rw [h1, h2]
  · intro env h
    unfold trainScriptMain
    rw [h]
  · intro env hX hy
    unfold trainScriptMain
    cases hv : env "X" with
    | none => exact absurd hv hX
    | some v => simp [hy]

/-- Witness for C8: two concrete environments agreeing only on `X` and
`y` drive the trainer identically, and the empty environment yields
`NameError` on `X`. -/
theorem trainer_reads_implicit_globals_witness :
    trainScriptMain envBoth = trainScriptMain envBothPlus ∧
    trainScriptMain envEmpty = ([], Except.error (PyError.nameError "X")) :=
  ⟨trainer_reads_implicit_globals.1 envBoth envBothPlus rfl rfl,
   trainer_reads_implicit_globals.2.1 envEmpty rfl⟩

/-- Claim C3: for every non-empty feature/label input of `n` rows, the
split with held-out fraction 0.2 gives a validation set of `ceil(0.2 n)`
rows (within one integer of `0.2 n`: `n ≤ 5·|validation| ≤ n + 4`) and
the train and validation sizes sum to `n`. -/
theorem split_sizes (X : List (List Int)) (y : List Int) (n : Nat)
    (hX : X.length = n) (hn : 0 < n) :
    (trainTestSplit scriptSeed X y).2.1.length = testCount n ∧
    (trainTestSplit scriptSeed X y).1.length = n - testCount n ∧
    (trainTestSplit scriptSeed X y).1.length + (trainTestSplit scriptSeed X y).2.1.length = n ∧
    n ≤ 5 * testCount n ∧ 5 * testCount n ≤ n + 4 := by
  subst hX
  have htc : testCount X.length ≤ X.length := testCount_le X.length
  have hm : min (testCount X.length) X.length = testCount X.length := Nat.min_eq_left htc
  simp only [trainTestSplit_eq, List.length_map, List.length_take, List.length_drop,
    permIndices_length, hm]
  unfold testCount at htc ⊢
  refine ⟨?_, ?_, ?_, ?_, ?_⟩ <;> first | trivial | omega

/-- Witness for C3: the spec's end-to-end scenario — 100 rows split into
80 training rows and 20 validation rows. -/
theorem split_sizes_witness :
    (trainTestSplit scriptSeed sampleX100 sampleY100).1.length = 80 ∧
    (trainTestSplit scriptSeed sampleX100 sampleY100).2.1.length = 20 := by
  have h := split_sizes sampleX100 sampleY100 100 (by simp [sampleX100]) (by norm_num)
  exact ⟨h.2.1.trans (by decide), h.1.trans (by decide)⟩

/-- Claim C10: the split preserves positional row alignment between
features and labels — every (feature row, label) pair of the training
subset, and of the validation subset, originates from one and the same
row index of the original input. -/
theorem split_preserves_alignment (X : List (List Int)) (y : List Int)
    (hlen : y.length = X.length) :
    (∀ i, i < (trainTestSplit scriptSeed X y).1.length →
      ∃ j, j < X.length ∧
        (trainTestSplit scriptSeed X y).1.getD i [] = X.getD j [] ∧
        (trainTestSplit scriptSeed X y).2.2.1.getD i 0 = y.getD j 0) ∧
    (∀ i, i < (trainTestSplit scriptSeed X y).2.1.length →
      ∃ j, j < X.length ∧
        (trainTestSplit scriptSeed X y).2.1.getD i [] = X.getD j [] ∧
        (trainTestSplit scriptSeed X y).2.2.2.getD i 0 = y.getD j 0) := by
  simp only [trainTestSplit_eq]
  constructor
  · intro i hi
    rw [List.length_map] at hi
    refine ⟨((permIndices scriptSeed X.length).drop (testCount X.length)).getD i 0, ?_, ?_, ?_⟩
    · exact mem_permIndices _ _ (List.drop_subset _ _ (getD_mem_of_lt _ _ _ hi))
    · exact getD_map_of_lt _ _ _ _ 0 hi
    · exact getD_map_of_lt _ _ _ _ 0 hi
  · intro i hi
    rw [List.length_map] at hi
    refine ⟨((permIndices scriptSeed X.length).take (testCount X.length)).getD i 0, ?_, ?_, ?_⟩
    · exact mem_permIndices _ _ (List.take_subset _ _ (getD_mem_of_lt _ _ _ hi))
    · exact getD_map_of_lt _ _ _ _ 0 hi
    · exact getD_map_of_lt _ _ _ _ 0 hi

/-- Witness for C10: the first training pair of the concrete 3-row
split originates from a single source row. -/
theorem split_preserves_alignment_witness :
    ∃ j, j < sampleX3.length ∧
      (trainTestSplit scriptSeed sampleX3 sampleY3).1.getD 0 [] = sampleX3.getD j [] ∧
      (trainTestSplit scriptSeed sampleX3 sampleY3).2.2.1.getD 0 0 = sampleY3.getD j 0 :=
  (split_preserves_alignment sampleX3 sampleY3 (by decide)).1 0 (by decide)

/-- Claim C2: the network built by the trainer has input width equal to
the feature matrix's column count, followed by `Dense(64, relu)`,
`Dense(32, relu)` and `Dense(1, sigmoid)`; and for any model, a mismatch
between its input width and the feature count of the training data makes
`fit` fail with an empty event trace, i.e. before any training iteration
runs. -/
theorem model_input_width_and_topology (X : List (List Int)) (y : List Int) (c : Nat)
    (hrect : ∀ r ∈ X, r.length = c)
    (hn : 0 < (trainTestSplit scriptSeed X y).1.length) :
    (buildModel (colCount (trainTestSplit scriptSeed X y).1)).inputWidth = c ∧
    (buildModel (colCount (trainTestSplit scriptSeed X y).1)).layers =
      [⟨64, "relu"⟩, ⟨32, "relu"⟩, ⟨1, "sigmoid"⟩] ∧
    (∀ (m : SequentialModel) (Xtr : List (List Int)) (ytr : List Int)
        (Xval : List (List Int)) (yval : List Int) (ep bs : Nat),
      (∃ r ∈ Xtr, r.length ≠ m.inputWidth) →
      (fit m Xtr ytr Xval yval ep bs).1 = [] ∧
      (fit m Xtr ytr Xval yval ep bs).2 =
        Except.error (PyError.valueError "input shape incompatible with the model")) := by
  refine ⟨?_, rfl, ?_⟩
  · simp only [trainTestSplit_eq, List.length_map] at hn ⊢
    show colCount (((permIndices scriptSeed X.length).drop (testCount X.length)).map
      (fun i => X.getD i [])) = c
    cases hti : (permIndices scriptSeed X.length).drop (testCount X.length) with
    | nil => rw [hti] at hn; simp at hn
    | cons k rest =>
      have hkmem : k ∈ (permIndices scriptSeed X.length).drop (testCount X.length) := by
        rw [hti]
        exact List.mem_cons_self ..
      have hk : k < X.length :=
        mem_permIndices scriptSeed X.length (List.drop_subset _ _ hkmem)
      have hmem : X.getD k [] ∈ X := getD_mem_of_lt _ _ _ hk
      simpa [colCount] using hrect _ hmem
  · intro m Xtr ytr Xval yval ep bs hmis
    have hall : Xtr.all (fun r => r.length == m.inputWidth) = false := by
      cases hb : Xtr.all (fun r => r.length == m.inputWidth) with
      | false => rfl
      | true =>
        rcases hmis with ⟨r, hr, hne⟩
        exact (hne (by simpa using List.all_eq_true.1 hb r hr)).elim
    constructor <;> simp [fit, hall]

/-- Witness for C2: the concrete 3-row, 2-feature input yields a model
with input width 2. -/
theorem model_input_width_and_topology_witness :
    (buildModel (colCount (trainTestSplit scriptSeed sampleX3 sampleY3).1)).inputWidth = 2 :=
  (model_input_width_and_topology sampleX3 sampleY3 2 (by decide) (by decide)).1

theorem runTrainModel_eq (X : List (List Int)) (y : List Int) :
    runTrainModel X y =
      (if ((trainTestSplit scriptSeed X y).1).all
          (fun r => r.length == colCount (trainTestSplit scriptSeed X y).1) then
        ((List.range scriptEpochs).map (fun i => Event.epochRun i true) ++
          [Event.saved modelSavePath], Except.ok ())
      else
        ([], Except.error (PyError.valueError "input shape incompatible with the model"))) := by
  cases hb : ((trainTestSplit scriptSeed X y).1).all
      (fun r => r.length == colCount (trainTestSplit scriptSeed X y).1) with
  | true => simp [runTrainModel, fit, compileModel, buildModel, hb]
  | false => simp [runTrainModel, fit, compileModel, buildModel, hb]

/-- Claim C6: the trainer compiles with the adam optimizer, binary
cross-entropy loss and the accuracy metric, fits for exactly 10 epochs
in batches of 32 evaluating the validation data after each epoch, and
saves the model only after a successful fit; if fitting fails, no save
event occurs. -/
theorem trainer_compile_fit_save (X : List (List Int)) (y : List Int) :
    scriptOptimizer = "adam" ∧ scriptLoss = "binary_crossentropy" ∧
    scriptMetrics = ["accuracy"] ∧ scriptEpochs = 10 ∧ scriptBatchSize = 32 ∧
    ((runTrainModel X y).2 = Except.ok () →
      (runTrainModel X y).1 =
        (List.range 10).map (fun i => Event.epochRun i true) ++ [Event.saved modelSavePath]) ∧
    (∀ e, (runTrainModel X y).2 = Except.error e →
      Event.saved modelSavePath ∉ (runTrainModel X y).1) := by
  refine ⟨rfl, rfl, rfl, rfl, rfl, ?_, ?_⟩
  · rw [runTrainModel_eq]
    split
    · intro _; rfl
    · intro hok; exact absurd hok (by simp)
  · rw [runTrainModel_eq]
    split
    · intro e he; exact absurd he (by simp)
    · intro e he; simp

/-- Witness for C6: on the concrete 3-row input the trainer's trace is
ten validated epochs followed by the save event. -/
theorem trainer_compile_fit_save_witness :
    (runTrainModel sampleX3 sampleY3).1 =
      (List.range 10).map (fun i => Event.epochRun i true) ++ [Event.saved modelSavePath] :=
  (trainer_compile_fit_save sampleX3 sampleY3).2.2.2.2.2.1 (by rfl)

/-- Claim C1: for every dataset the loader reads successfully that has a
`"label"` column (well-formed rows, numeric cells), the loader yields a
feature matrix of exactly the non-label columns and a label vector of
exactly the `"label"` column, and both have as many entries as the
dataset has rows. -/
theorem loader_features_labels (data : DataFrame)
    (hlab : "label" ∈ data.columns)
    (hwf : ∀ r ∈ data.rows, r.length = data.columns.length)
    (hnum : ∀ r ∈ data.rows, ∀ v ∈ r, v.isStr = false) :
    loadScript data = Except.ok (data,
      data.rows.map (fun r =>
        ((data.columns.zip r).filter (fun p => p.1 != "label")).map (fun p => numOf p.2)),
      data.rows.map (fun r =>
        numOf (r.getD (data.columns.indexOf "label") (Value.str "")))) ∧
    (data.rows.map (fun r =>
        ((data.columns.zip r).filter (fun p => p.1 != "label")).map
          (fun p => numOf p.2))).length = data.rows.length ∧
    (data.rows.map (fun r =>
        numOf (r.getD (data.columns.indexOf "label") (Value.str "")))).length
      = data.rows.length := by
  have hX : npArrayMatrix (data.rows.map (dropRowEntries data.columns "label")) =
      Except.ok ((data.rows.map (dropRowEntries data.columns "label")).map
        (fun r => r.map numOf)) := by
    apply npArrayMatrix_of_num
    intro r hr v hv
    rcases List.mem_map.1 hr with ⟨r0, hr0, rfl⟩
    rcases List.mem_map.1 hv with ⟨p, hp, rfl⟩
    obtain ⟨pa, pb⟩ := p
    exact hnum r0 hr0 _ (List.of_mem_zip (List.mem_of_mem_filter hp)).2
  have hidx : data.columns.indexOf "label" < data.columns.length :=
    List.indexOf_lt_length.2 hlab
  have hy : npArrayVec (data.rows.map
      (fun r => r.getD (data.columns.indexOf "label") (Value.str ""))) =
      Except.ok ((data.rows.map
        (fun r => r.getD (data.columns.indexOf "label") (Value.str ""))).map numOf) := by
    apply npArrayVec_of_num
    intro v hv
    rcases List.mem_map.1 hv with ⟨r0, hr0, rfl⟩
    have hlt : data.columns.indexOf "label" < r0.length := by
      rw [hwf r0 hr0]
      exact hidx
    exact hnum r0 hr0 _ (getD_mem_of_lt _ _ _ hlt)
  refine ⟨?_, by simp, by simp⟩
  simp only [loadScript, DataFrame.drop, DataFrame.getColumn, hlab, if_true,
    Bool.false_eq_true, if_false, Option.getD_some]
  rw [hX, hy]
  simp [dropRowEntries, List.map_map, Function.comp]

/-- Witness for C1 at the concrete sample frame: features are the two
non-label columns, labels are the `"label"` column. -/
theorem loader_features_labels_witness :
    loadScript sampleFrame = Except.ok (sampleFrame,
      sampleFrame.rows.map (fun r =>
        ((sampleFrame.columns.zip r).filter (fun p => p.1 != "label")).map
          (fun p => numOf p.2)),
      sampleFrame.rows.map (fun r =>
        numOf (r.getD (sampleFrame.columns.indexOf "label") (Value.str "")))) :=
  (loader_features_labels sampleFrame (by decide) (by decide) (by decide)).1

/-- Claim C7: for every dataset with a `"label"` column in which some
feature cell (a cell outside the label column) is non-numeric, the
loader's conversion of the feature columns to numeric arrays fails
fatally with a type/conversion error. -/
theorem nonnumeric_features_type_error (data : DataFrame)
    (hlab : "label" ∈ data.columns)
    (hstr : ∃ r ∈ data.rows, ∃ p ∈ data.columns.zip r,
      p.1 ≠ "label" ∧ p.2.isStr = true) :
    ∃ s, loadScript data = Except.error (PyError.typeError s) := by
  have hmis : ∃ r ∈ data.rows.map (dropRowEntries data.columns "label"),
      ∃ v ∈ r, v.isStr = true := by
    rcases hstr with ⟨r0, hr0, p, hp, hpl, hps⟩
    refine ⟨dropRowEntries data.columns "label" r0, List.mem_map_of_mem _ hr0,
      p.2, ?_, hps⟩
    exact List.mem_map_of_mem _ (List.mem_filter.2 ⟨hp, by simpa [bne_iff_ne] using hpl⟩)
  rcases npArrayMatrix_of_str hmis with ⟨s, hs⟩
  refine ⟨s, ?_⟩
  simp only [loadScript, DataFrame.drop, DataFrame.getColumn, hlab, if_true,
    Bool.false_eq_true, if_false, Option.getD_some]
  simp [hs]

/-- Witness for C7: a concrete frame whose feature column holds the
string `"oops"` makes the loader fail with a type error. -/
theorem nonnumeric_features_type_error_witness :
    ∃ s, loadScript sampleStrFrame = Except.error (PyError.typeError s) :=
  nonnumeric_features_type_error sampleStrFrame (by decide) (by decide)

end SkillBot
